import Mathlib

/-!
Shallow embedding of `code/zato-server/src/zato/server/amqp/channel.py`:
the AMQP consuming connector, classes `ConsumingConnection` and
`ConsumingConnector`.  Pure state is passed explicitly; each connector
operation returns the updated state together with a trace of the observable
events it performs (lock acquisition/release, consumer close/create, broker
acknowledgements), in the order the source performs them.  Parts of the base
classes `BaseConnection` / `BaseConnector` that the source calls but that are
not part of this file's code are modelled from the specification and marked
as such in their doc comments.
-/

namespace Zato

set_option maxRecDepth 16384

/-- Broker-message action constants (`zato.common.broker_message.CHANNEL`) as
used by `channel.py`: `AMQP_CREATE`, `AMQP_EDIT`, `AMQP_DELETE`, `AMQP_CLOSE`
and `AMQP_MESSAGE_RECEIVED`; `OTHER` stands for any further action code a
broker message may carry. -/
inductive Action where
  | CHANNEL_AMQP_CREATE
  | CHANNEL_AMQP_EDIT
  | CHANNEL_AMQP_DELETE
  | CHANNEL_AMQP_CLOSE
  | CHANNEL_AMQP_MESSAGE_RECEIVED
  | OTHER (code : Nat)
  deriving DecidableEq

/-- The per-channel configuration fields that `_setup_odb` copies into
`self.channel_amqp` (id, name, is_active, queue, consumer tag prefix,
service) and that a CREATE/EDIT broker message carries as its payload.
`consumer_tag_pfx` embeds the source's consumer-tag-prefix field. -/
structure ChannelConfig where
  id : Nat
  name : String
  is_active : Bool
  queue : String
  consumer_tag_pfx : String
  service : String
  deriving DecidableEq

/-- The underlying broker connection object of a consumer (`consumer.conn`
in `_stop_amqp_connection`), with its `is_open` flag. -/
structure AmqpConn where
  is_open : Bool
  deriving DecidableEq

/-- A `ConsumingConnection` as far as the connector observes it: the channel
name, queue and consumer tag prefix it was constructed with
(`_amqp_consumer`), plus its broker connection.  `conn = none` models a
consumer whose background thread has not yet established the connection. -/
structure Consumer where
  channel_name : String
  queue : String
  consumer_tag_pfx : String
  conn : Option AmqpConn
  deriving DecidableEq

/-- Truthiness of `consumer.conn and consumer.conn.is_open` from the guard in
`_stop_amqp_connection`: true exactly when the connection object is non-null
and its `is_open` flag is set. -/
def Consumer.conn_is_open (c : Consumer) : Bool :=
  match c.conn with
  | some k => k.is_open
  | none => false

/-- Modelled from the spec: `BaseConnection.close` (the base class is not
part of this source file) — "close() is idempotent: closing an
already-closed or never-opened Consumer is a no-op, never an error"; closing
leaves the underlying connection no longer open. -/
def Consumer.close (c : Consumer) : Consumer :=
  { c with conn := c.conn.map fun _ => { is_open := false } }

/-- The mutable `self.channel_amqp` bunch of `ConsumingConnector`: the
configuration fields plus the optional `consumer` entry (`none` models both
an absent key and a key holding Python's `None`). -/
structure ChannelAmqp where
  config : ChannelConfig
  consumer : Option Consumer
  deriving DecidableEq

/-- Identity of the two `RLock`s taken by `_channel_amqp_create_edit`
(definition lock, then channel lock) and of the outgoing-connection lock
that `_setup_amqp` takes. -/
inductive LockId where
  | def_amqp_lock
  | channel_amqp_lock
  | out_amqp_lock
  deriving DecidableEq

/-- Observable events performed by connector operations, in source order. -/
inductive Event where
  | acquire (l : LockId)
  | release (l : LockId)
  | close_consumer (c : Consumer)
  | create_consumer (c : Consumer)
  | release_connections
  | terminate_process
  deriving DecidableEq

/-- Selects the consumer lifecycle events (close/create) of a trace. -/
def Event.is_consumer_event : Event → Bool
  | Event.close_consumer _ => true
  | Event.create_consumer _ => true
  | _ => false

/-- The lock identities acquired along a trace, in order. -/
def acquired (t : List Event) : List LockId :=
  t.filterMap fun e =>
    match e with
    | Event.acquire l => some l
    | _ => none

/-- Embeds `ConsumingConnector._amqp_consumer`: builds a fresh
`ConsumingConnection` from the current configuration (name, queue, consumer
tag prefix) and starts its I/O thread; the broker connection is not yet
established at that point, hence `conn = none`. -/
def amqp_consumer (cfg : ChannelConfig) : Consumer :=
  { channel_name := cfg.name
  , queue := cfg.queue
  , consumer_tag_pfx := cfg.consumer_tag_pfx
  , conn := none }

/-- Embeds `ConsumingConnector._stop_amqp_connection`: calls
`consumer.close()` only when the `consumer` entry is truthy, its `conn` is
non-null and `conn.is_open` holds; otherwise it does nothing. -/
def stop_amqp_connection (s : ChannelAmqp) : ChannelAmqp × List Event :=
  match s.consumer with
  | some c =>
    if c.conn_is_open then
      ({ s with consumer := some c.close }, [Event.close_consumer c])
    else
      (s, [])
  | none => (s, [])

/-- Embeds `ConsumingConnector._recreate_amqp_consumer`: first stops the
current connection, then, if the (unchanged) configuration is active,
creates a fresh consumer from it and stores it in `channel_amqp.consumer`. -/
def recreate_amqp_consumer (s : ChannelAmqp) : ChannelAmqp × List Event :=
  if (stop_amqp_connection s).1.config.is_active then
    ({ (stop_amqp_connection s).1 with
        consumer := some (amqp_consumer (stop_amqp_connection s).1.config) },
      (stop_amqp_connection s).2
        ++ [Event.create_consumer (amqp_consumer (stop_amqp_connection s).1.config)])
  else
    stop_amqp_connection s

/-- Embeds `ConsumingConnector._channel_amqp_create_edit`: under
`def_amqp_lock` then `channel_amqp_lock`, replaces `channel_amqp` with the
incoming message's configuration while carrying over the old `consumer`
reference, then recreates the consumer. -/
def channel_amqp_create_edit (s : ChannelAmqp) (msg : ChannelConfig) :
    ChannelAmqp × List Event :=
  ((recreate_amqp_consumer { config := msg, consumer := s.consumer }).1,
    Event.acquire LockId.def_amqp_lock
      :: Event.acquire LockId.channel_amqp_lock
      :: (recreate_amqp_consumer { config := msg, consumer := s.consumer }).2
      ++ [Event.release LockId.channel_amqp_lock, Event.release LockId.def_amqp_lock])

/-- Embeds `ConsumingConnector._setup_amqp`: under `out_amqp_lock` then
`def_amqp_lock` (and without taking `channel_amqp_lock`), recreates the
consumer on startup. -/
def setup_amqp (s : ChannelAmqp) : ChannelAmqp × List Event :=
  ((recreate_amqp_consumer s).1,
    Event.acquire LockId.out_amqp_lock
      :: Event.acquire LockId.def_amqp_lock
      :: (recreate_amqp_consumer s).2
      ++ [Event.release LockId.def_amqp_lock, Event.release LockId.out_amqp_lock])

/-- Modelled from the spec: `BaseConnector._close` (the base class is not
part of this source file) — "stop the Consumer, release broker and storage
connections, and terminate the connector process". -/
def close_connector (s : ChannelAmqp) : ChannelAmqp × List Event :=
  ((stop_amqp_connection s).1,
    (stop_amqp_connection s).2 ++ [Event.release_connections, Event.terminate_process])

/-- A broker control message as seen by `filter`: its action and target id. -/
structure BrokerMsg where
  action : Action
  id : Nat
  deriving DecidableEq

/-- Embeds `ConsumingConnector.filter`.  The inherited `BaseConnector.filter`
is outside this source file and its verdict is passed in as `base_result`.
The Python function returns `True`, `False`, or falls through returning
`None` (for an EDIT/DELETE whose id does not match); the result is therefore
an `Option Bool`, with `none` standing for Python's implicit `None`. -/
def filter (base_result : Bool) (s : ChannelAmqp) (msg : BrokerMsg) : Option Bool :=
  if base_result then
    some true
  else if msg.action = Action.CHANNEL_AMQP_EDIT ∨ msg.action = Action.CHANNEL_AMQP_DELETE then
    if s.config.id = msg.id then some true else none
  else
    some false

/-- Python truthiness of a `filter` result: `None` and `False` are falsy
(rejecting values), `True` is truthy (accepting). -/
def truthy (r : Option Bool) : Bool :=
  r.getD false

/-- The `method_frame` of a delivery, as far as the source reads it:
its `delivery_tag`. -/
structure MethodFrame where
  delivery_tag : Nat
  deriving DecidableEq

/-- The `header_frame` of a delivery (its header table). -/
structure HeaderFrame where
  headers : List (String × String)
  deriving DecidableEq

/-- Events performed by `_on_basic_consume` while handling one delivery. -/
inductive ConsumeEvent where
  | callback_call (m : MethodFrame) (h : HeaderFrame) (body : String)
  | basic_ack (delivery_tag : Nat)
  deriving DecidableEq

/-- Recognizes acknowledgement events. -/
def ConsumeEvent.is_ack : ConsumeEvent → Bool
  | ConsumeEvent.basic_ack _ => true
  | _ => false

/-- Embeds `ConsumingConnection._on_basic_consume`: invokes the callback on
the delivery; only if the callback returns normally does it then execute
`channel.basic_ack(delivery_tag=method_frame.delivery_tag)`.  If the
callback raises (modelled as `Except.error`), the exception propagates and
the acknowledgement line is never reached.  Returns the event trace and the
propagated error, if any. -/
def on_basic_consume (cb : MethodFrame → HeaderFrame → String → Except Nat Unit)
    (m : MethodFrame) (h : HeaderFrame) (body : String) :
    List ConsumeEvent × Option Nat :=
  match cb m h body with
  | Except.ok _ =>
    ([ConsumeEvent.callback_call m h body, ConsumeEvent.basic_ack m.delivery_tag], none)
  | Except.error e =>
    ([ConsumeEvent.callback_call m h body], some e)

/-- The outbound message that `_on_amqp_message` sends over the broker
client: exactly the four keys `action`, `service`, `rid`, `payload`. -/
structure OutMsg where
  action : Action
  service : String
  rid : Nat
  payload : String
  deriving DecidableEq

/-- Embeds `ConsumingConnector._on_amqp_message`: builds the outbound
parameters from `CHANNEL.AMQP_MESSAGE_RECEIVED`, the current configuration's
service name, a freshly generated correlation id (`new_rid()`, passed in as
`fresh_rid`) and the delivery body; the method and header frames contribute
nothing to the event. -/
def on_amqp_message (s : ChannelAmqp) (fresh_rid : Nat)
    (m : MethodFrame) (hf : HeaderFrame) (body : String) : OutMsg :=
  { action := Action.CHANNEL_AMQP_MESSAGE_RECEIVED
  , service := s.config.service
  , rid := fresh_rid
  , payload := body }

/-- Embeds `ConsumingConnector.on_broker_pull_msg_CHANNEL_AMQP_CREATE`. -/
def on_broker_pull_msg_CHANNEL_AMQP_CREATE (s : ChannelAmqp) (msg : ChannelConfig) :
    ChannelAmqp × List Event :=
  channel_amqp_create_edit s msg

/-- Embeds `ConsumingConnector.on_broker_pull_msg_CHANNEL_AMQP_EDIT`. -/
def on_broker_pull_msg_CHANNEL_AMQP_EDIT (s : ChannelAmqp) (msg : ChannelConfig) :
    ChannelAmqp × List Event :=
  channel_amqp_create_edit s msg

/-- Embeds `ConsumingConnector.on_broker_pull_msg_CHANNEL_AMQP_DELETE`:
calls `self._close()`, ignoring the message payload. -/
def on_broker_pull_msg_CHANNEL_AMQP_DELETE (s : ChannelAmqp) (msg : BrokerMsg) :
    ChannelAmqp × List Event :=
  close_connector s

/-- Embeds `ConsumingConnector.on_broker_pull_msg_CHANNEL_AMQP_CLOSE`:
calls `self._close()`, ignoring the message payload. -/
def on_broker_pull_msg_CHANNEL_AMQP_CLOSE (s : ChannelAmqp) (msg : BrokerMsg) :
    ChannelAmqp × List Event :=
  close_connector s

/-- Python's `str.ljust(width, fill)`: pads `s` on the right with `fill` up
to a minimum total width; a string already at least `width` long is returned
unchanged. -/
def pyLjust (s : String) (width : Nat) (fill : Char) : String :=
  s ++ String.mk (List.replicate (width - s.length) fill)

/-- The colon-joined consumer-tag body built by `ConsumingConnection.consume`
from the tag prefix, resolved host IP (`gethostbyname(gethostname())`),
fully qualified host name (`getfqdn()`), process id and 64-bit random value. -/
def amqp_join (pfx ip fqdn : String) (pid rand : Nat) : String :=
  pfx ++ ":" ++ ip ++ ":" ++ fqdn ++ ":" ++ toString pid ++ ":" ++ toString rand

/-- Embeds the consumer-tag computation of `ConsumingConnection.consume`:
the colon-joined fields, then `.ljust(72, char zero)`. -/
def consume_tag (pfx ip fqdn : String) (pid rand : Nat) : String :=
  pyLjust (amqp_join pfx ip fqdn pid rand) 72 '0'

/-- Whether the connector currently holds a consumer whose connection is
open — the exact condition under which `_stop_amqp_connection` acts. -/
def has_active_consumer (s : ChannelAmqp) : Bool :=
  match s.consumer with
  | some c => c.conn_is_open
  | none => false

/-- Sample active configuration used for concrete witnesses. -/
def cfgActive : ChannelConfig :=
  { id := 1, name := "c1", is_active := true, queue := "q1"
  , consumer_tag_pfx := "zato", service := "svc" }

/-- Sample inactive configuration used for concrete witnesses. -/
def cfgInactive : ChannelConfig :=
  { id := 1, name := "c1", is_active := false, queue := "q2"
  , consumer_tag_pfx := "zato", service := "svc" }

/-- Sample consumer with an open broker connection. -/
def cOpen : Consumer :=
  { channel_name := "c1", queue := "q1", consumer_tag_pfx := "zato"
  , conn := some { is_open := true } }

/-- Sample connector state holding no consumer. -/
def sNoConsumer : ChannelAmqp :=
  { config := cfgActive, consumer := none }

/-- Sample connector state holding an open consumer. -/
def sOpen : ChannelAmqp :=
  { config := cfgActive, consumer := some cOpen }

lemma acquired_stop (s : ChannelAmqp) : acquired (stop_amqp_connection s).2 = [] := by
  cases hc : s.consumer with
  | none => simp [stop_amqp_connection, hc, acquired]
  | some c =>
    by_cases ho : c.conn_is_open
    · simp [stop_amqp_connection, hc, ho, acquired]
    · simp [stop_amqp_connection, hc, ho, acquired]

lemma acquired_recreate (s : ChannelAmqp) : acquired (recreate_amqp_consumer s).2 = [] := by
  by_cases h : (stop_amqp_connection s).1.config.is_active
  · simp only [recreate_amqp_consumer, h, if_true, acquired, List.filterMap_append]
    have h1 := acquired_stop s
    simp only [acquired] at h1
    simp [h1]
  · simp only [recreate_amqp_consumer, h, if_false]
    exact acquired_stop s

/-- C5: lock discipline of the reconfiguration operations.  The code acquires
`out_amqp_lock` and then `def_amqp_lock` in `_setup_amqp` — not the
definition lock followed by the channel lock, and the channel lock is not
taken there at all — while `_channel_amqp_create_edit` acquires
`def_amqp_lock` and then `channel_amqp_lock`.  This evaluates the lock
acquisition order of both operations for every state. -/
theorem setup_amqp_lock_order (s : ChannelAmqp) (msg : ChannelConfig) :
    acquired (setup_amqp s).2 = [LockId.out_amqp_lock, LockId.def_amqp_lock] ∧
    acquired (channel_amqp_create_edit s msg).2 =
      [LockId.def_amqp_lock, LockId.channel_amqp_lock] := by
  have h1 := acquired_recreate s
  have h2 := acquired_recreate { config := msg, consumer := s.consumer }
  simp only [acquired] at h1 h2
  constructor
  · simp [setup_amqp, acquired, List.filterMap_append, h1]
  · simp [channel_amqp_create_edit, acquired, List.filterMap_append, h2]

/-- C7: the outbound event built by `_on_amqp_message` consists exactly of
the MESSAGE_RECEIVED action, the current configuration's service name, the
freshly generated correlation id and the delivery's raw body, and does not
depend on the delivery's method or header frames. -/
theorem on_amqp_message_forwards (s : ChannelAmqp) (fresh_rid : Nat)
    (m : MethodFrame) (hf : HeaderFrame) (body : String) :
    on_amqp_message s fresh_rid m hf body =
      { action := Action.CHANNEL_AMQP_MESSAGE_RECEIVED
      , service := s.config.service
      , rid := fresh_rid
      , payload := body } ∧
    (∀ m2 hf2, on_amqp_message s fresh_rid m2 hf2 body =
      on_amqp_message s fresh_rid m hf body) :=
  ⟨rfl, fun _ _ => rfl⟩

/-- C8: the CREATE handler and the EDIT handler are extensionally equal, and
the DELETE handler and the CLOSE handler are extensionally equal. -/
theorem create_edit_delete_close_equiv :
    (∀ (s : ChannelAmqp) (msg : ChannelConfig),
      on_broker_pull_msg_CHANNEL_AMQP_CREATE s msg =
        on_broker_pull_msg_CHANNEL_AMQP_EDIT s msg) ∧
    (∀ (s : ChannelAmqp) (msg : BrokerMsg),
      on_broker_pull_msg_CHANNEL_AMQP_DELETE s msg =
        on_broker_pull_msg_CHANNEL_AMQP_CLOSE s msg) :=
  ⟨fun _ _ => rfl, fun _ _ => rfl⟩

/-- An 80-character tag prefix, long enough that the joined consumer tag
exceeds the 72-character padding minimum. -/
def long_pfx : String :=
  "aaaaaaaaaaaaaaaaaaaaaaaaaaaaaaaaaaaaaaaaaaaaaaaaaaaaaaaaaaaaaaaaaaaaaaaaaaaaaaaa"

/-- C9 counterexample: two subscription attempts produce tags of different
lengths (72 and 115), so the generated tags are not fixed-width; `ljust`
only enforces a minimum width. -/
theorem consume_tag_not_fixed_width :
    (consume_tag "zato" "10.0.0.1" "host.example.com" 4242 123).length = 72 ∧
    (consume_tag long_pfx "10.0.0.1" "host.example.com" 4242 123).length = 115 ∧
    Nat.beq (consume_tag "zato" "10.0.0.1" "host.example.com" 4242 123).length
      (consume_tag long_pfx "10.0.0.1" "host.example.com" 4242 123).length = false := by
  refine ⟨?_, ?_, ?_⟩ <;> rfl

/-- C9 (amended): the consumer tag is the colon-joined concatenation of the
tag prefix, resolved host IP, fully qualified hostname, process id and
64-bit random value, padded on the right with the zero character to a
minimum width of 72; its length is `max 72 (joined length)`, so the tag is
fixed-width (72) only when the joined fields fit in 72 characters. -/
theorem consume_tag_shape (pfx ip fqdn : String) (pid rand : Nat) :
    (consume_tag pfx ip fqdn pid rand).length =
      max 72 (amqp_join pfx ip fqdn pid rand).length ∧
    consume_tag pfx ip fqdn pid rand =
      amqp_join pfx ip fqdn pid rand ++
        String.mk (List.replicate (72 - (amqp_join pfx ip fqdn pid rand).length) '0') := by
  refine ⟨?_, rfl⟩
  show (amqp_join pfx ip fqdn pid rand ++
      String.mk (List.replicate (72 - (amqp_join pfx ip fqdn pid rand).length) '0')).length = _
  rw [String.length_append]
  have h1 : (String.mk (List.replicate
      (72 - (amqp_join pfx ip fqdn pid rand).length) '0')).length =
      72 - (amqp_join pfx ip fqdn pid rand).length := by
    show (List.replicate (72 - (amqp_join pfx ip fqdn pid rand).length) '0').length = _
    exact List.length_replicate _ _
  rw [h1]
  omega

/-- C1: acknowledgement gating in `_on_basic_consume`.  The delivery
callback is always the first event (invoked synchronously, before any
acknowledgement); when it returns normally the trace is exactly the callback
call followed by a single acknowledgement of the delivery's tag; when it
raises, the error propagates and the trace contains no acknowledgement. -/
theorem on_basic_consume_ack_gating
    (cb : MethodFrame → HeaderFrame → String → Except Nat Unit)
    (m : MethodFrame) (hf : HeaderFrame) (body : String) :
    (on_basic_consume cb m hf body).1.head? =
      some (ConsumeEvent.callback_call m hf body) ∧
    (cb m hf body = Except.ok () →
      (on_basic_consume cb m hf body).1 =
        [ConsumeEvent.callback_call m hf body,
          ConsumeEvent.basic_ack m.delivery_tag] ∧
      ((on_basic_consume cb m hf body).1.countP ConsumeEvent.is_ack = 1 ∧
        (on_basic_consume cb m hf body).2 = none)) ∧
    (∀ e, cb m hf body = Except.error e →
      ((on_basic_consume cb m hf body).1.countP ConsumeEvent.is_ack = 0 ∧
        (on_basic_consume cb m hf body).2 = some e)) := by
  refine ⟨?_, ?_, ?_⟩
  · cases hcb : cb m hf body <;> simp [on_basic_consume, hcb]
  · intro hcb
    simp [on_basic_consume, hcb, List.countP_cons, ConsumeEvent.is_ack]
  · intro e hcb
    simp [on_basic_consume, hcb, List.countP_cons, ConsumeEvent.is_ack]

/-- C1 witness: a succeeding callback yields exactly one acknowledgement of
the delivery's tag, a failing callback yields none. -/
theorem on_basic_consume_ack_gating_witness :
    (on_basic_consume (fun _ _ _ => Except.ok ()) { delivery_tag := 5 }
        { headers := [] } "body").1 =
      [ConsumeEvent.callback_call { delivery_tag := 5 } { headers := [] } "body",
        ConsumeEvent.basic_ack 5] ∧
    (on_basic_consume (fun _ _ _ => Except.error 7) { delivery_tag := 5 }
        { headers := [] } "body").1.countP ConsumeEvent.is_ack = 0 :=
  ⟨((on_basic_consume_ack_gating (fun _ _ _ => Except.ok ())
      { delivery_tag := 5 } { headers := [] } "body").2.1 rfl).1,
    ((on_basic_consume_ack_gating (fun _ _ _ => Except.error 7)
      { delivery_tag := 5 } { headers := [] } "body").2.2 7 rfl).1⟩

/-- C4: for a control message not accepted by the inherited base filter,
`filter` is accepting (truthy) exactly for an EDIT or DELETE whose target id
equals the connector's current channel id; a mismatched EDIT/DELETE yields
Python's `None` (falsy, hence rejecting) and every other action yields
`False`. -/
theorem filter_channel_accepts (s : ChannelAmqp) (msg : BrokerMsg) :
    (truthy (filter false s msg) = true ↔
      ((msg.action = Action.CHANNEL_AMQP_EDIT ∨
          msg.action = Action.CHANNEL_AMQP_DELETE) ∧
        s.config.id = msg.id)) ∧
    ((msg.action = Action.CHANNEL_AMQP_EDIT ∨
        msg.action = Action.CHANNEL_AMQP_DELETE) →
      s.config.id ≠ msg.id → filter false s msg = none) ∧
    (msg.action ≠ Action.CHANNEL_AMQP_EDIT →
      msg.action ≠ Action.CHANNEL_AMQP_DELETE →
      filter false s msg = some false) := by
  by_cases he : msg.action = Action.CHANNEL_AMQP_EDIT ∨
      msg.action = Action.CHANNEL_AMQP_DELETE
  · by_cases hid : s.config.id = msg.id
    · refine ⟨?_, ?_, ?_⟩
      · simp [filter, truthy, he, hid]
      · intro _ hne
        exact absurd hid hne
      · intro h1 h2
        rcases he with he | he
        · exact absurd he h1
        · exact absurd he h2
    · refine ⟨?_, ?_, ?_⟩
      · simp [filter, truthy, he, hid]
      · intro _ _
        simp [filter, he, hid]
      · intro h1 h2
        rcases he with he | he
        · exact absurd he h1
        · exact absurd he h2
  · refine ⟨?_, ?_, ?_⟩
    · simp [filter, truthy, he]
    · intro h
      exact absurd h he
    · intro _ _
      simp [filter, he]

/-- C4 witness: with current channel id 1, an EDIT targeting id 1 is
accepted, an EDIT targeting id 2 falls through to `None`, and an unrelated
action is answered with `False`. -/
theorem filter_channel_accepts_witness :
    truthy (filter false sOpen { action := Action.CHANNEL_AMQP_EDIT, id := 1 }) = true ∧
    filter false sOpen { action := Action.CHANNEL_AMQP_EDIT, id := 2 } = none ∧
    filter false sOpen { action := Action.OTHER 0, id := 1 } = some false :=
  ⟨(filter_channel_accepts sOpen { action := Action.CHANNEL_AMQP_EDIT, id := 1 }).1.mpr
      ⟨Or.inl rfl, rfl⟩,
    (filter_channel_accepts sOpen { action := Action.CHANNEL_AMQP_EDIT, id := 2 }).2.1
      (Or.inl rfl) (by decide),
    (filter_channel_accepts sOpen { action := Action.OTHER 0, id := 1 }).2.2
      (by decide) (by decide)⟩

/-- C6: stopping the consumer when none is active (no consumer, or its
connection is absent or closed) leaves the state unchanged and performs no
event, and the stop operation is idempotent: a second stop immediately after
a first one is always a no-op. -/
theorem stop_amqp_connection_idempotent (s : ChannelAmqp) :
    (has_active_consumer s = false → stop_amqp_connection s = (s, [])) ∧
    stop_amqp_connection (stop_amqp_connection s).1 =
      ((stop_amqp_connection s).1, []) := by
  constructor
  · intro h
    cases hc : s.consumer with
    | none => simp [stop_amqp_connection, hc]
    | some c =>
      have hco : c.conn_is_open = false := by
        simpa [has_active_consumer, hc] using h
      simp [stop_amqp_connection, hc, hco]
  · cases hc : s.consumer with
    | none => simp [stop_amqp_connection, hc]
    | some c =>
      by_cases ho : c.conn_is_open
      · have hcl : c.close.conn_is_open = false := by
          cases hk : c.conn <;> simp [Consumer.close, Consumer.conn_is_open, hk]
        simp [stop_amqp_connection, hc, ho, hcl]
      · simp [stop_amqp_connection, hc, ho]

/-- C6 witness: stopping a connector that never created a consumer is a
no-op. -/
theorem stop_amqp_connection_idempotent_witness :
    stop_amqp_connection sNoConsumer = (sNoConsumer, []) :=
  (stop_amqp_connection_idempotent sNoConsumer).1 (by decide)

/-- C10: `_stop_amqp_connection` calls `close()` exactly when a consumer is
present, its connection object is non-null and that connection's `is_open`
flag is true; in every other case (no consumer, connection not yet
established, or connection already closed) the state is returned untouched
with no close event. -/
theorem stop_amqp_connection_guard (s : ChannelAmqp) :
    (s.consumer = none → stop_amqp_connection s = (s, [])) ∧
    (∀ c, s.consumer = some c → c.conn = none →
      stop_amqp_connection s = (s, [])) ∧
    (∀ c k, s.consumer = some c → c.conn = some k → k.is_open = false →
      stop_amqp_connection s = (s, [])) ∧
    (∀ c k, s.consumer = some c → c.conn = some k → k.is_open = true →
      stop_amqp_connection s =
        ({ s with consumer := some c.close }, [Event.close_consumer c])) := by
  refine ⟨?_, ?_, ?_, ?_⟩
  · intro h
    simp [stop_amqp_connection, h]
  · intro c hc hk
    simp [stop_amqp_connection, hc, Consumer.conn_is_open, hk]
  · intro c k hc hk hop
    simp [stop_amqp_connection, hc, Consumer.conn_is_open, hk, hop]
  · intro c k hc hk hop
    simp [stop_amqp_connection, hc, Consumer.conn_is_open, hk, hop]

lemma stop_config (s : ChannelAmqp) :
    (stop_amqp_connection s).1.config = s.config := by
  cases hc : s.consumer with
  | none => simp [stop_amqp_connection, hc]
  | some c =>
    by_cases ho : c.conn_is_open
    · simp [stop_amqp_connection, hc, ho]
    · simp [stop_amqp_connection, hc, ho]

lemma recreate_active (s : ChannelAmqp) (h : s.config.is_active = true) :
    (recreate_amqp_consumer s).1 =
      { config := s.config, consumer := some (amqp_consumer s.config) } ∧
    (recreate_amqp_consumer s).2 =
      (stop_amqp_connection s).2
        ++ [Event.create_consumer (amqp_consumer s.config)] := by
  have hcfg := stop_config s
  have hact : (stop_amqp_connection s).1.config.is_active = true := by
    rw [hcfg]; exact h
  constructor
  · simp only [recreate_amqp_consumer, hact, if_true]
    rw [hcfg]
  · simp only [recreate_amqp_consumer, hact, if_true]
    rw [hcfg]

lemma recreate_inactive (s : ChannelAmqp) (h : s.config.is_active = false) :
    recreate_amqp_consumer s = stop_amqp_connection s := by
  have hcfg := stop_config s
  have hact : (stop_amqp_connection s).1.config.is_active = false := by
    rw [hcfg]; exact h
  simp [recreate_amqp_consumer, hact]

lemma closed_not_open (c : Consumer) : c.close.conn_is_open = false := by
  cases hk : c.conn <;> simp [Consumer.close, Consumer.conn_is_open, hk]

/-- C2: applying a Create or Edit whose configuration is active first runs
the stop operation and only then creates the new consumer (in the trace,
every close precedes the single create), and afterwards the state holds
exactly the consumer freshly created from the new configuration — bound to
its queue and consumer tag prefix — while the forwarder now uses the new
configuration's service name. -/
theorem channel_create_edit_active (s : ChannelAmqp) (msg : ChannelConfig)
    (hact : msg.is_active = true) :
    (channel_amqp_create_edit s msg).1.config = msg ∧
    (channel_amqp_create_edit s msg).1.consumer = some (amqp_consumer msg) ∧
    (amqp_consumer msg).queue = msg.queue ∧
    (amqp_consumer msg).consumer_tag_pfx = msg.consumer_tag_pfx ∧
    (∀ r m hf b,
      (on_amqp_message (channel_amqp_create_edit s msg).1 r m hf b).service =
        msg.service) ∧
    ((channel_amqp_create_edit s msg).2.filter Event.is_consumer_event =
      (stop_amqp_connection { config := msg, consumer := s.consumer }).2 ++
        [Event.create_consumer (amqp_consumer msg)]) ∧
    (∀ c, s.consumer = some c → c.conn_is_open = true →
      (channel_amqp_create_edit s msg).2.filter Event.is_consumer_event =
        [Event.close_consumer c, Event.create_consumer (amqp_consumer msg)]) := by
  have h1 : (channel_amqp_create_edit s msg).1 =
      { config := msg, consumer := some (amqp_consumer msg) } :=
    (recreate_active { config := msg, consumer := s.consumer } hact).1
  have htr := (recreate_active { config := msg, consumer := s.consumer } hact).2
  have h6 : (channel_amqp_create_edit s msg).2.filter Event.is_consumer_event =
      (stop_amqp_connection { config := msg, consumer := s.consumer }).2 ++
        [Event.create_consumer (amqp_consumer msg)] := by
    show (Event.acquire LockId.def_amqp_lock
        :: Event.acquire LockId.channel_amqp_lock
        :: (recreate_amqp_consumer { config := msg, consumer := s.consumer }).2
        ++ [Event.release LockId.channel_amqp_lock,
            Event.release LockId.def_amqp_lock]).filter Event.is_consumer_event = _
    rw [htr]
    cases hc : s.consumer with
    | none => simp [stop_amqp_connection, Event.is_consumer_event]
    | some c =>
      by_cases ho : c.conn_is_open
      · simp [stop_amqp_connection, ho, Event.is_consumer_event]
      · simp [stop_amqp_connection, ho, Event.is_consumer_event]
  refine ⟨by rw [h1], by rw [h1], rfl, rfl, ?_, h6, ?_⟩
  · intro r m hf b
    rw [h1]
    rfl
  · intro c hc ho
    rw [h6, hc]
    simp [stop_amqp_connection, ho]

/-- C2 witness: editing an active channel over an open consumer closes the
old consumer before creating the new one and leaves exactly the fresh
consumer in the state. -/
theorem channel_create_edit_active_witness :
    (channel_amqp_create_edit sOpen cfgActive).1.consumer =
      some (amqp_consumer cfgActive) ∧
    (channel_amqp_create_edit sOpen cfgActive).2.filter Event.is_consumer_event =
      [Event.close_consumer cOpen,
        Event.create_consumer (amqp_consumer cfgActive)] :=
  ⟨(channel_create_edit_active sOpen cfgActive rfl).2.1,
    (channel_create_edit_active sOpen cfgActive rfl).2.2.2.2.2.2 cOpen rfl rfl⟩

/-- C3 counterexample: a connector holding an open consumer that receives an
Edit whose configuration has `is_active = false` ends with the current
configuration inactive yet with a consumer reference still present — the
stale, now closed, old consumer — because `_recreate_amqp_consumer` never
resets `channel_amqp.consumer` to `None` in the inactive branch.  This
refutes "if the current ChannelConfig has isActive = false then no Consumer
is present". -/
theorem create_edit_inactive_keeps_stale_consumer :
    (channel_amqp_create_edit sOpen cfgInactive).1.config.is_active = false ∧
    ((channel_amqp_create_edit sOpen cfgInactive).1.consumer).isSome = true ∧
    (channel_amqp_create_edit sOpen cfgInactive).1.consumer = some cOpen.close :=
  ⟨rfl, rfl, rfl⟩

/-- C3 (amended): after every operation — initial setup and every applied
Create/Edit — the state satisfies: if the applied configuration is active,
the consumer field holds exactly the consumer freshly created from it; if it
is inactive, no OPEN consumer is present (any consumer still referenced is
closed or never connected; the code keeps the stale reference instead of
resetting it to none). -/
theorem create_edit_state_invariant (s : ChannelAmqp) (msg : ChannelConfig) :
    (msg.is_active = true →
      (channel_amqp_create_edit s msg).1.config = msg ∧
      (channel_amqp_create_edit s msg).1.consumer = some (amqp_consumer msg)) ∧
    (msg.is_active = false →
      (channel_amqp_create_edit s msg).1.config = msg ∧
      ∀ c, (channel_amqp_create_edit s msg).1.consumer = some c →
        c.conn_is_open = false) ∧
    (s.config.is_active = false → s.consumer = none → (setup_amqp s).1 = s) ∧
    (s.config.is_active = true →
      (setup_amqp s).1.consumer = some (amqp_consumer s.config)) := by
  refine ⟨?_, ?_, ?_, ?_⟩
  · intro hact
    have h1 : (channel_amqp_create_edit s msg).1 =
        { config := msg, consumer := some (amqp_consumer msg) } :=
      (recreate_active { config := msg, consumer := s.consumer } hact).1
    exact ⟨by rw [h1], by rw [h1]⟩
  · intro hina
    have h1 : (channel_amqp_create_edit s msg).1 =
        (stop_amqp_connection { config := msg, consumer := s.consumer }).1 := by
      show (recreate_amqp_consumer { config := msg, consumer := s.consumer }).1 = _
      rw [recreate_inactive { config := msg, consumer := s.consumer } hina]
    constructor
    · rw [h1]
      exact stop_config { config := msg, consumer := s.consumer }
    · intro c hc
      rw [h1] at hc
      cases hsc : s.consumer with
      | none => simp [stop_amqp_connection, hsc] at hc
      | some c0 =>
        by_cases ho : c0.conn_is_open
        · simp [stop_amqp_connection, hsc, ho] at hc
          rw [← hc]
          exact closed_not_open c0
        · simp [stop_amqp_connection, hsc, ho] at hc
          rw [← hc]
          simpa using ho
  · intro hina hnone
    show (recreate_amqp_consumer s).1 = s
    rw [recreate_inactive s hina]
    simp [stop_amqp_connection, hnone]
  · intro hact
    show (recreate_amqp_consumer s).1.consumer = _
    rw [(recreate_active s hact).1]

/-- C3 (amended) witness: a Create with an active configuration installs the
fresh consumer; an Edit with an inactive configuration leaves only a
non-open stale consumer; inactive startup without a consumer is a no-op on
the state. -/
theorem create_edit_state_invariant_witness :
    (channel_amqp_create_edit sNoConsumer cfgActive).1.consumer =
      some (amqp_consumer cfgActive) ∧
    cOpen.close.conn_is_open = false ∧
    (setup_amqp { config := cfgInactive, consumer := none }).1 =
      { config := cfgInactive, consumer := none } :=
  ⟨((create_edit_state_invariant sNoConsumer cfgActive).1 rfl).2,
    ((create_edit_state_invariant sOpen cfgInactive).2.1 rfl).2 cOpen.close rfl,
    (create_edit_state_invariant
      { config := cfgInactive, consumer := none } cfgInactive).2.2.1 rfl rfl⟩

/-- C10 witness: no consumer means no close; an open consumer is closed and
replaced by its closed copy. -/
theorem stop_amqp_connection_guard_witness :
    stop_amqp_connection sNoConsumer = (sNoConsumer, []) ∧
    stop_amqp_connection sOpen =
      ({ sOpen with consumer := some cOpen.close }, [Event.close_consumer cOpen]) :=
  ⟨(stop_amqp_connection_guard sNoConsumer).1 rfl,
    (stop_amqp_connection_guard sOpen).2.2.2 cOpen { is_open := true } rfl rfl rfl⟩

end Zato
